import Mathlib

/-!
Verification of the connectVision trimmer monitor (scripts/trimmer_monitor_v2.py and
src/connectvision/database.py) against its natural-language specification.

The Python code is shallowly embedded: wall-clock times are rationals, machine integers
are Lean Int/Nat, Python `None` is `Option.none`, and the per-iteration body of
`TrimmerMonitorApp.monitor_loop` becomes a pure step function on an explicit state
record.  Two step functions are given for the state-machine section: `smStep` is the
transition the call sites intend (every `db.log_event` call delivers its event and
returns), while `smStepRaising` is the branch body as it actually executes — every
`db.log_event` / `db.log_telemetry` call in trimmer_monitor_v2.py omits the required
`machine_id` parameter of the `ConnectVisionDB` methods, so the call raises `TypeError`
at argument binding, the surrounding `except` abandons the iteration, and assignments
written after the call never run.  The keyword-binding facts themselves are embedded
(`pyBindOk` with the parameter lists of database.py and the kwarg lists of the call
sites) so that the raising model is justified inside the development.
-/

namespace ConnectVision

/-- The `TrimmerState` enum of trimmer_monitor_v2.py (lines 311-315). -/
inductive TrimmerState where
  | EMPTY
  | PART_PLACED
  | TRIMMING
deriving DecidableEq

/-- The `.value` string of each enum member (`EMPTY`, `PLACED`, `TRIMMING`). -/
def TrimmerState.value : TrimmerState → String
  | .EMPTY => "EMPTY"
  | .PART_PLACED => "PLACED"
  | .TRIMMING => "TRIMMING"

/-- Python `int(q)`: truncation toward zero, as applied to `time.time() * 1000`
and to uptime computations. -/
def pyInt (q : ℚ) : Int :=
  if 0 ≤ q then ⌊q⌋ else ⌈q⌉

/-- The presence decision of `process_frame` (line 401):
`is_present = total_area >= self.config.min_area`. -/
def isPresentOf (total_area min_area : ℚ) : Bool :=
  decide (min_area ≤ total_area)

/-- Python/NumPy slice semantics on an axis of length `L`: the number of elements
selected by `arr[a:b]`.  A negative index counts from the end of the axis, every
index is clamped to `[0, L]`, and an inverted range selects nothing.  The region
values are Python ints (the `/set_roi` route assigns `int(data['x'])` etc. with no
validation), so `a` and `b` range over ℤ. -/
def pySliceLen (L : ℕ) (a b : ℤ) : ℕ :=
  ((if b < 0 then max ((L : ℤ) + b) 0 else min b (L : ℤ)) -
    (if a < 0 then max ((L : ℤ) + a) 0 else min a (L : ℤ))).toNat

/-- The ROI extraction of `process_frame` (lines 390-392) on a 480x640 frame:
`frame[y:y+h, x:x+w]` is taken when `y+h <= 480 and x+w <= 640`, otherwise the full
frame is substituted.  Returns the `(rows, cols)` shape of the array actually
handed to the detection pipeline. -/
def roiShape (x y w h : ℤ) : ℕ × ℕ :=
  if y + h ≤ 480 ∧ x + w ≤ 640 then
    (pySliceLen 480 y (y + h), pySliceLen 640 x (x + w))
  else (480, 640)

/-- Whether the presence computation of `process_frame` raises on this region:
`cv2.cvtColor` (line 395) rejects an empty input array, so the sampling step raises
exactly when the ROI actually indexed has zero rows or zero columns. -/
def presenceRaises (x y w h : ℤ) : Bool :=
  decide ((roiShape x y w h).1 = 0) || decide ((roiShape x y w h).2 = 0)

/-- A region lies within the 640x480 frame bounds. -/
def regionWithinFrame (x y w h : ℤ) : Bool :=
  decide (0 ≤ x ∧ 0 ≤ y ∧ x + w ≤ 640 ∧ y + h ≤ 480)

/-- The sliding-window prune applied both in the telemetry block of `monitor_loop`
(line 510) and in the `/status` route (line 557):
`[t for t in cycles_last_hour if t > now - 3600]`. -/
def pruneHour (now : ℚ) (window : List ℚ) : List ℚ :=
  window.filter (fun t => decide (now - 3600 < t))

/-- `cycles_per_hour` as computed by the `/status` route (line 565): the length of the
pruned window. -/
def cyclesPerHour (now : ℚ) (window : List ℚ) : ℕ :=
  (pruneHour now window).length

end ConnectVision

namespace ConnectVision

/-- One presence sample fed to the state-machine section of `monitor_loop`:
the `(is_present, area)` pair returned by `process_frame` together with the
`current_time = time.time()` taken at the top of the iteration. -/
structure Sample where
  present : Bool
  area : ℤ
  now : ℚ
deriving DecidableEq

/-- The mutable fields of `TrimmerMonitorApp` touched by `monitor_loop` and the
`/status` route (initialised in `__init__`, lines 326-346). -/
structure MState where
  state : TrimmerState
  cycle_id : Option ℤ
  current_lot : Option String
  state_start_time : ℚ
  total_cycles : ℕ
  cycles_last_hour : List ℚ
  boot_time : ℚ
  last_telemetry : ℚ
  last_present : Bool
  last_area : ℤ
deriving DecidableEq

/-- The state of `TrimmerMonitorApp` right after `__init__` with boot time `t0`:
phase `EMPTY`, no cycle id, no lot, zero cycles, empty window. -/
def initState (t0 : ℚ) : MState :=
  { state := .EMPTY
    cycle_id := none
    current_lot := none
    state_start_time := t0
    total_cycles := 0
    cycles_last_hour := []
    boot_time := t0
    last_telemetry := t0
    last_present := false
    last_area := 0 }

/-- A record passed to `db.log_event` by `monitor_loop`.  The `details` payload the
code formats as `duration_sec:%.2f` / `cycle_time_sec:%.2f` is embedded as the
rational duration value it carries. -/
structure Event where
  event_type : String
  cycle_id : Option ℤ
  req_lot : Option String
  area : Option ℤ
  duration : Option ℚ
deriving DecidableEq

/-- The state-machine section of `monitor_loop` (lines 443-505) under the semantics
the call sites intend: each `db.log_event` call delivers its event and returns (as
`ConnectVisionDB.log_event` itself never raises — it catches database errors and
returns `None`).  `lot` is the value `db.get_active_lot(machine_id)` returns on this
iteration.  Returns the updated machine state and the delivered events in order. -/
def smStep (lot : Option String) (s : MState) (p : Sample) : MState × List Event :=
  match s.state with
  | .EMPTY =>
    if p.present then
      ({ s with state := .PART_PLACED
                state_start_time := p.now
                cycle_id := some (pyInt (p.now * 1000))
                current_lot := lot },
       [{ event_type := "placed_in"
          cycle_id := some (pyInt (p.now * 1000))
          req_lot := lot
          area := some p.area
          duration := none }])
    else (s, [])
  | .PART_PLACED =>
    if p.present = false then
      ({ s with state := .EMPTY, state_start_time := p.now, cycle_id := none }, [])
    else if 1 < p.now - s.state_start_time then
      ({ s with state := .TRIMMING, state_start_time := p.now }, [])
    else (s, [])
  | .TRIMMING =>
    if p.present = false then
      ({ s with state := .EMPTY
                state_start_time := p.now
                total_cycles := s.total_cycles + 1
                cycles_last_hour := s.cycles_last_hour ++ [p.now]
                cycle_id := none
                current_lot := none },
       [{ event_type := "pushed_out"
          cycle_id := s.cycle_id
          req_lot := s.current_lot
          area := some p.area
          duration := some (p.now - s.state_start_time) },
        { event_type := "CYCLE"
          cycle_id := s.cycle_id
          req_lot := s.current_lot
          area := none
          duration := some (p.now - s.state_start_time) }])
    else (s, [])

/-- The same section as the code actually executes: every `db.log_event` call in
trimmer_monitor_v2.py omits the required `machine_id` parameter of
`ConnectVisionDB.log_event`, so the call raises `TypeError` at argument binding; the
`except` clause of `monitor_loop` then abandons the iteration, so the field
assignments written after the call never run and no event reaches the sink.  Field
assignments before the call (they are ordinary attribute writes) persist.  Returns
the state plus whether the iteration raised. -/
def smStepRaising (lot : Option String) (s : MState) (p : Sample) : MState × Bool :=
  match s.state with
  | .EMPTY =>
    if p.present then
      ({ s with state := .PART_PLACED
                state_start_time := p.now
                cycle_id := some (pyInt (p.now * 1000))
                current_lot := lot }, true)
    else (s, false)
  | .PART_PLACED =>
    if p.present = false then
      ({ s with state := .EMPTY, state_start_time := p.now, cycle_id := none }, false)
    else if 1 < p.now - s.state_start_time then
      ({ s with state := .TRIMMING, state_start_time := p.now }, false)
    else (s, false)
  | .TRIMMING =>
    if p.present = false then
      ({ s with state := .EMPTY, state_start_time := p.now }, true)
    else (s, false)

/-- The telemetry block of `monitor_loop` (lines 508-518) under the intended call
semantics: when 60 seconds have elapsed since `last_telemetry`, the window is pruned
and `last_telemetry` is advanced. -/
def telemetryStep (s : MState) (now : ℚ) : MState :=
  if 60 ≤ now - s.last_telemetry then
    { s with cycles_last_hour := pruneHour now s.cycles_last_hour, last_telemetry := now }
  else s

/-- The telemetry block as the code actually executes: the window prune (line 510)
runs, then the `db.log_telemetry` call raises `TypeError` at argument binding
(`machine_id` missing), so `last_telemetry` is never advanced. -/
def telemetryStepRaising (s : MState) (now : ℚ) : MState :=
  if 60 ≤ now - s.last_telemetry then
    { s with cycles_last_hour := pruneHour now s.cycles_last_hour }
  else s

/-- One full `monitor_loop` iteration under the intended call semantics.
`process_frame` publishes `last_present` / `last_area` before the state machine
runs (lines 425-428). -/
def iterIntended (lot : Option String) (s : MState) (p : Sample) : MState × List Event :=
  let s0 := { s with last_present := p.present, last_area := p.area }
  let r := smStep lot s0 p
  (telemetryStep r.1 p.now, r.2)

/-- One full `monitor_loop` iteration as the code actually executes: if the
state-machine section raised, the telemetry block is skipped (the exception has
already reached the `except` clause); no event is ever delivered. -/
def iterActual (lot : Option String) (s : MState) (p : Sample) : MState :=
  let s0 := { s with last_present := p.present, last_area := p.area }
  let r := smStepRaising lot s0 p
  if r.2 then r.1 else telemetryStepRaising r.1 p.now

/-- Run of actual iterations over a list of `(get_active_lot result, sample)` pairs. -/
def runActual (s : MState) : List (Option String × Sample) → MState
  | [] => s
  | (lot, p) :: rest => runActual (iterActual lot s p) rest

/-- Run of intended iterations, accumulating the delivered events in order. -/
def runIntended (s : MState) : List (Option String × Sample) → MState × List Event
  | [] => (s, [])
  | (lot, p) :: rest =>
    let r := iterIntended lot s p
    let r2 := runIntended r.1 rest
    (r2.1, r.2 ++ r2.2)

/-- The states visited by a run of actual iterations (initial state included). -/
def statesActual : MState → List (Option String × Sample) → List MState
  | s, [] => [s]
  | s, (lot, p) :: rest => s :: statesActual (iterActual lot s p) rest

/-- A trace in which presence toggles off before the dwell threshold is exceeded:
at no step does the machine sit in `PART_PLACED` with presence held and more than
1.0 s of dwell accumulated. -/
def safeTrace : MState → List (Option String × Sample) → Prop
  | _, [] => True
  | s, (lot, p) :: rest =>
    ¬(s.state = TrimmerState.PART_PLACED ∧ p.present = true ∧
        1 < p.now - s.state_start_time) ∧
      safeTrace (iterActual lot s p) rest

/-- The JSON payload assembled by the `/status` route (lines 554-568). -/
structure StatusPayload where
  present : Bool
  area : ℤ
  state : String
  total_cycles : ℕ
  cycles_per_hour : ℕ
  current_lot : Option String
  uptime : ℤ
deriving DecidableEq

/-- `/status` as a function of the app state and the query time. -/
def statusOf (s : MState) (now : ℚ) : StatusPayload :=
  { present := s.last_present
    area := s.last_area
    state := s.state.value
    total_cycles := s.total_cycles
    cycles_per_hour := cyclesPerHour now s.cycles_last_hour
    current_lot := s.current_lot
    uptime := pyInt (now - s.boot_time) }

/-- The claim's "visible DEGRADED status" read off the status payload: the one status
string the payload carries is its `state` field. -/
def degradedVisible (s : MState) (now : ℚ) : Bool :=
  (statusOf s now).state == "DEGRADED"

/-- Outcome of one pass through the `try` body of `monitor_loop`: either a presence
sample is processed, or an unexpected exception is raised before any field of the
app state is assigned (e.g. inside the capture portion of `process_frame`). -/
inductive IterOutcome where
  | sample (lot : Option String) (p : Sample)
  | failure

/-- One pass of the `while self.running` loop (lines 434-524): the `except` clause
only prints the error and sleeps for one second, leaving the state untouched. -/
def loopStep (s : MState) : IterOutcome → MState
  | .sample lot p => iterActual lot s p
  | .failure => s

/-- The monitor loop over a list of iteration outcomes. -/
def runLoop (s : MState) : List IterOutcome → MState
  | [] => s
  | o :: rest => runLoop (loopStep s o) rest

/-- The required (default-less) parameters of `ConnectVisionDB.log_event`
(database.py line 211), `self` excluded. -/
def log_event_required : List String := ["machine_id", "trimmer_id", "event_type"]

/-- The defaulted parameters of `ConnectVisionDB.log_event`. -/
def log_event_optional : List String := ["cycle_id", "req_lot", "area", "details"]

/-- The required parameters of `ConnectVisionDB.log_telemetry` (database.py
line 263), `self` excluded. -/
def log_telemetry_required : List String :=
  ["machine_id", "trimmer_id", "cycles_last_hour", "uptime_seconds"]

/-- The defaulted parameters of `ConnectVisionDB.log_telemetry`. -/
def log_telemetry_optional : List String := ["status", "error_code", "error_text"]

/-- Keywords passed at the `placed_in` call site (trimmer_monitor_v2.py lines 450-456). -/
def placed_in_call_kwargs : List String :=
  ["trimmer_id", "event_type", "cycle_id", "req_lot", "area"]

/-- Keywords passed at the `pushed_out` call site (lines 480-487). -/
def pushed_out_call_kwargs : List String :=
  ["trimmer_id", "event_type", "cycle_id", "req_lot", "area", "details"]

/-- Keywords passed at the `CYCLE` call site (lines 489-495). -/
def cycle_call_kwargs : List String :=
  ["trimmer_id", "event_type", "cycle_id", "req_lot", "details"]

/-- Keywords passed at the telemetry call site (lines 512-517). -/
def telemetry_call_kwargs : List String :=
  ["trimmer_id", "cycles_last_hour", "uptime_seconds", "status"]

/-- Python keyword-argument binding succeeds iff every required parameter is given
and every given keyword names a declared parameter. -/
def pyBindOk (required optional given : List String) : Bool :=
  required.all (fun q => given.contains q) &&
    given.all (fun k => required.contains k || optional.contains k)

/-- The `TrimmerConfig` dataclass of database.py (lines 30-39). -/
structure TrimmerConfig where
  machine_id : ℤ
  machine_name : String
  roi_x : ℤ
  roi_y : ℤ
  roi_w : ℤ
  roi_h : ℤ
  threshold : ℤ
  min_area : ℤ
deriving DecidableEq

/-- The stub configuration `load_trimmer_config` builds when no database connection
is available (database.py lines 142-149). -/
def stubTrimmerConfig (machine_id : ℤ) : TrimmerConfig :=
  { machine_id := machine_id
    machine_name := toString machine_id
    roi_x := 280
    roi_y := 260
    roi_w := 80
    roi_h := 80
    threshold := 100
    min_area := 500 }

/-- A row of `secondary_machines` as fetched by `load_trimmer_config`; the vision
columns are nullable. -/
structure MachineRow where
  machineID : ℤ
  machineName : Option String
  roi_x : Option ℤ
  roi_y : Option ℤ
  roi_w : Option ℤ
  roi_h : Option ℤ
  threshold : Option ℤ
  min_area : Option ℤ
deriving DecidableEq

/-- Python `value or default` on a nullable integer column: `None` and `0` are falsy. -/
def orIntDefault (v : Option ℤ) (d : ℤ) : ℤ :=
  match v with
  | none => d
  | some x => if x = 0 then d else x

/-- Python `value or default` on a nullable string column: `None` and `""` are falsy. -/
def orStrDefault (v : Option String) (d : String) : String :=
  match v with
  | none => d
  | some x => if x = "" then d else x

/-- Outcome of the `SELECT` in `load_trimmer_config`: a database error, or a
(possibly absent) row. -/
inductive QueryResult where
  | err
  | ok (row : Option MachineRow)

/-- `ConnectVisionDB.load_trimmer_config` (database.py lines 132-175): with no
connection it returns a built-in stub config; with a connection it returns `None` on
a query error or a missing row, and otherwise builds the config with `or`-defaults
per column. -/
def load_trimmer_config (connected : Bool) (machine_id : ℤ) (q : QueryResult) :
    Option TrimmerConfig :=
  if connected = false then some (stubTrimmerConfig machine_id)
  else
    match q with
    | .err => none
    | .ok none => none
    | .ok (some row) =>
      some { machine_id := row.machineID
             machine_name := orStrDefault row.machineName (toString row.machineID)
             roi_x := orIntDefault row.roi_x 280
             roi_y := orIntDefault row.roi_y 260
             roi_w := orIntDefault row.roi_w 80
             roi_h := orIntDefault row.roi_h 80
             threshold := orIntDefault row.threshold 100
             min_area := orIntDefault row.min_area 500 }

/-- The exit code of `main` (trimmer_monitor_v2.py lines 692-709) as a function of
the loaded configuration: 1 when the config is `None`, else the normal path runs to
`return 0`. -/
def mainExitCode (cfg : Option TrimmerConfig) : ℤ :=
  match cfg with
  | none => 1
  | some _ => 0

/-- Whether `main` reaches `TrimmerMonitorApp(...)` / `app.start(...)`: it does
exactly when a configuration was loaded. -/
def monitoringStarts (cfg : Option TrimmerConfig) : Bool :=
  cfg.isSome

end ConnectVision

namespace ConnectVision

/-- C7: for every window contents and every query time `now`, the pruning used by the
telemetry block and the `/status` route keeps exactly the completion timestamps `t`
with `now - 3600 < t` (strict); when every recorded timestamp is at most `now`, that
is exactly the half-open interval `(now-3600, now]`; and a single completion at
`t = 0` queried at `t = 3601` yields `cycles_per_hour = 0`. -/
theorem c7_window_pruning :
    (∀ (now : ℚ) (w : List ℚ) (t : ℚ), t ∈ pruneHour now w ↔ t ∈ w ∧ now - 3600 < t) ∧
    (∀ (now : ℚ) (w : List ℚ) (t : ℚ), (∀ u ∈ w, u ≤ now) →
      (t ∈ pruneHour now w ↔ t ∈ w ∧ now - 3600 < t ∧ t ≤ now)) ∧
    cyclesPerHour 3601 [0] = 0 := by
  refine ⟨?_, ?_, by norm_num [cyclesPerHour, pruneHour]⟩
  · intro now w t
    simp [pruneHour, List.mem_filter]
  · intro now w t hle
    simp only [pruneHour, List.mem_filter, decide_eq_true_eq]
    constructor
    · rintro ⟨hmem, hgt⟩
      exact ⟨hmem, hgt, hle t hmem⟩
    · rintro ⟨hmem, hgt, _⟩
      exact ⟨hmem, hgt⟩

/-- Witness for C7 at a concrete window and query time. -/
theorem c7_window_pruning_witness :
    (∀ u ∈ ([5] : List ℚ), u ≤ 10) ∧
    ((5 : ℚ) ∈ pruneHour 10 [5] ↔ (5 : ℚ) ∈ ([5] : List ℚ) ∧
      (10 : ℚ) - 3600 < 5 ∧ (5 : ℚ) ≤ 10) :=
  ⟨by intro u hu; rw [List.mem_singleton] at hu; rw [hu]; norm_num,
   c7_window_pruning.2.1 10 [5] 5 (by intro u hu; rw [List.mem_singleton] at hu; rw [hu]; norm_num)⟩

/-- C8 counterexample: region `(-10, 0, 20, 50)` does not lie within the frame
bounds, yet the guard `y+h <= 480 and x+w <= 640` of line 392 passes, so the full
frame is NOT substituted; NumPy resolves the slice `frame[0:50, -10:10]` to zero
columns, and `cv2.cvtColor` raises on the empty ROI.  A zero-width region
`(0, 0, 0, 50)` likewise passes the guard and raises.  Both halves of the claim
fail on these inputs. -/
theorem c8_roi_fallback_counterexample :
    regionWithinFrame (-10) 0 20 50 = false ∧
    roiShape (-10) 0 20 50 = (50, 0) ∧
    roiShape (-10) 0 20 50 ≠ (480, 640) ∧
    presenceRaises (-10) 0 20 50 = true ∧
    regionWithinFrame 0 0 0 50 = true ∧
    presenceRaises 0 0 0 50 = true := by decide

/-- C8 amended: the full frame is substituted exactly when the region overflows the
frame's bottom or right edge (`y+h > 480` or `x+w > 640`, as for `(700,0,50,50)`),
and then the presence computation does not raise; a region with non-negative
coordinates and strictly positive width and height never makes it raise either;
but a region that escapes the frame through negative coordinates or has
non-positive extent can pass the guard un-substituted, and whenever its slice is
empty the presence computation raises (the raise lands in the monitor loop's
`except` clause) — a raise can only happen for such a guard-passing region. -/
theorem c8_roi_fallback_amended :
    (∀ x y w h : ℤ, 480 < y + h ∨ 640 < x + w →
      roiShape x y w h = (480, 640) ∧ presenceRaises x y w h = false) ∧
    (∀ x y w h : ℤ, 0 ≤ x → 0 ≤ y → 1 ≤ w → 1 ≤ h →
      presenceRaises x y w h = false) ∧
    (∀ x y w h : ℤ, presenceRaises x y w h = true →
      y + h ≤ 480 ∧ x + w ≤ 640 ∧
        (pySliceLen 480 y (y + h) = 0 ∨ pySliceLen 640 x (x + w) = 0)) ∧
    roiShape 700 0 50 50 = (480, 640) := by
  refine ⟨?_, ?_, ?_, by decide⟩
  · intro x y w h hover
    have hguard : ¬(y + h ≤ 480 ∧ x + w ≤ 640) := by omega
    refine ⟨by simp [roiShape, hguard], ?_⟩
    simp [presenceRaises, roiShape, hguard]
  · intro x y w h hx hy hw hh
    simp only [presenceRaises, roiShape, pySliceLen, Bool.or_eq_false_iff,
      decide_eq_false_iff_not]
    split
    · next hguard =>
      constructor <;> (split <;> split <;> omega)
    · exact ⟨by norm_num, by norm_num⟩
  · intro x y w h hr
    by_cases hguard : y + h ≤ 480 ∧ x + w ≤ 640
    · refine ⟨hguard.1, hguard.2, ?_⟩
      simpa [presenceRaises, roiShape, hguard] using hr
    · simp [presenceRaises, roiShape, hguard] at hr

/-- Witness for C8: the oversize region `(700,0,50,50)` falls back to the full frame
without raising, and a well-formed region `(10,10,100,100)` does not raise. -/
theorem c8_roi_fallback_amended_witness :
    ((480 : ℤ) < 0 + 50 ∨ (640 : ℤ) < 700 + 50) ∧
    (roiShape 700 0 50 50 = (480, 640) ∧ presenceRaises 700 0 50 50 = false) ∧
    presenceRaises 10 10 100 100 = false :=
  ⟨Or.inr (by norm_num),
   c8_roi_fallback_amended.1 700 0 50 50 (Or.inr (by norm_num)),
   c8_roi_fallback_amended.2.1 10 10 100 100 (by norm_num) (by norm_num)
     (by norm_num) (by norm_num)⟩

/-- C10: the presence flag of `process_frame` is exactly `min_area ≤ total_area`: a
frame whose measured area equals `min_area` is reported present, and presence is never
true when the measured area is strictly below `min_area`. -/
theorem c10_presence_threshold :
    (∀ a m : ℚ, isPresentOf a m = true ↔ m ≤ a) ∧
    (∀ m : ℚ, isPresentOf m m = true) ∧
    (∀ a m : ℚ, a < m → isPresentOf a m = false) := by
  refine ⟨?_, ?_, ?_⟩
  · intro a m
    simp [isPresentOf]
  · intro m
    simp [isPresentOf]
  · intro a m hlt
    simp [isPresentOf]
    linarith

/-- Witness for C10 at the repository's default `min_area = 500`. -/
theorem c10_presence_threshold_witness :
    isPresentOf 500 500 = true ∧ (499 : ℚ) < 500 ∧ isPresentOf 499 500 = false :=
  ⟨c10_presence_threshold.2.1 500, by norm_num,
   c10_presence_threshold.2.2 499 500 (by norm_num)⟩

/-- `telemetryStepRaising` never changes the phase, the cycle id or the lot. -/
theorem telemetryStepRaising_fields (t : MState) (n : ℚ) :
    (telemetryStepRaising t n).state = t.state ∧
    (telemetryStepRaising t n).cycle_id = t.cycle_id ∧
    (telemetryStepRaising t n).current_lot = t.current_lot ∧
    (telemetryStepRaising t n).state_start_time = t.state_start_time := by
  unfold telemetryStepRaising
  split <;> exact ⟨rfl, rfl, rfl, rfl⟩

/-- `telemetryStep` never changes the phase or the cycle id. -/
theorem telemetryStep_fields (t : MState) (n : ℚ) :
    (telemetryStep t n).state = t.state ∧ (telemetryStep t n).cycle_id = t.cycle_id := by
  unfold telemetryStep
  split <;> exact ⟨rfl, rfl⟩

/-- The phase after an actual iteration is the phase its state-machine section
produced: the telemetry block never touches it. -/
theorem iterActual_state (lot : Option String) (s : MState) (p : Sample) :
    (iterActual lot s p).state =
      (smStepRaising lot { s with last_present := p.present, last_area := p.area } p).1.state := by
  unfold iterActual
  dsimp only
  split
  · rfl
  · exact (telemetryStepRaising_fields _ _).1

/-- Entry into `TRIMMING` happens only from `PART_PLACED` with presence held and
strictly more than 1.0 s of dwell, in the code as it actually executes. -/
theorem trimming_entry_dwell (lot : Option String) (s : MState) (p : Sample)
    (htrim : (iterActual lot s p).state = TrimmerState.TRIMMING)
    (hne : s.state ≠ TrimmerState.TRIMMING) :
    s.state = TrimmerState.PART_PLACED ∧ p.present = true ∧
      1 < p.now - s.state_start_time := by
  rw [iterActual_state] at htrim
  cases hst : s.state with
  | EMPTY =>
    simp only [smStepRaising, hst] at htrim
    split at htrim <;> simp_all
  | PART_PLACED =>
    simp only [smStepRaising, hst] at htrim
    split at htrim
    · simp_all
    · split at htrim
      · next hdwell => simpa [hst] using And.intro (by simp_all) hdwell
      · simp_all
  | TRIMMING => exact absurd hst hne

/-- C6: the phase reaches `TRIMMING` only at a sample where `now - state_start_time`
is strictly greater than 1.0 s with presence held (first conjunct), and along any run
in which presence toggles off before that dwell threshold is exceeded the phase is
never `TRIMMING` (second conjunct).  Stated over the loop body as it actually
executes. -/
theorem c6_dwell_enforcement :
    (∀ (lot : Option String) (s : MState) (p : Sample),
      (iterActual lot s p).state = TrimmerState.TRIMMING →
      s.state ≠ TrimmerState.TRIMMING →
      s.state = TrimmerState.PART_PLACED ∧ p.present = true ∧
        1 < p.now - s.state_start_time) ∧
    (∀ (l : List (Option String × Sample)) (s : MState),
      s.state ≠ TrimmerState.TRIMMING → safeTrace s l →
      ∀ t ∈ statesActual s l, t.state ≠ TrimmerState.TRIMMING) := by
  refine ⟨trimming_entry_dwell, ?_⟩
  intro l
  induction l with
  | nil =>
    intro s hs _ t ht
    simp only [statesActual, List.mem_singleton] at ht
    exact ht ▸ hs
  | cons hd tl ih =>
    rintro s hs ⟨hsafe, hrest⟩ t ht
    obtain ⟨lot, p⟩ := hd
    simp only [statesActual, List.mem_cons] at ht
    rcases ht with rfl | ht
    · exact hs
    · refine ih (iterActual lot s p) ?_ hrest t ht
      intro hT
      exact hsafe (trimming_entry_dwell lot s p hT hs)

/-- Concrete state for the C6 witness: `PART_PLACED` entered at time 0. -/
def c6s : MState :=
  { initState 0 with state := .PART_PLACED, cycle_id := some 1000 }

/-- Concrete sample for the C6 witness: presence held at time 2. -/
def c6p : Sample :=
  { present := true, area := 600, now := 2 }

/-- Witness for C6: a transition into `TRIMMING` at dwell 2 s, and a one-sample safe
trace from the initial state along which the phase stays off `TRIMMING`. -/
theorem c6_dwell_enforcement_witness :
    (c6s.state = TrimmerState.PART_PLACED ∧ c6p.present = true ∧
      1 < c6p.now - c6s.state_start_time) ∧
    (initState 0).state ≠ TrimmerState.TRIMMING :=
  ⟨c6_dwell_enforcement.1 none c6s c6p
      (by norm_num [iterActual, smStepRaising, telemetryStepRaising, c6s, c6p, initState])
      (by decide),
   c6_dwell_enforcement.2 [(none, c6p)] (initState 0)
      (by decide)
      ⟨by decide, trivial⟩
      (initState 0) (by simp [statesActual])⟩

/-- Under the intended call semantics the spec invariant does hold: one intended
iteration preserves "cycle_id is non-null iff phase is not EMPTY", whatever the sink
returns. -/
theorem iterIntended_preserves_cycle_inv (lot : Option String) (s : MState) (p : Sample)
    (h : s.cycle_id ≠ none ↔ s.state ≠ TrimmerState.EMPTY) :
    ((iterIntended lot s p).1.cycle_id ≠ none ↔
      (iterIntended lot s p).1.state ≠ TrimmerState.EMPTY) := by
  unfold iterIntended
  dsimp only
  rw [(telemetryStep_fields _ _).1, (telemetryStep_fields _ _).2]
  cases hst : s.state with
  | EMPTY =>
    simp only [smStepRaising, hst, smStep]
    split <;> simp_all
  | PART_PLACED =>
    simp only [smStep, hst]
    split
    · simp
    · split <;> simp_all
  | TRIMMING =>
    simp only [smStep, hst]
    split <;> simp_all

/-- The C1 failing input: a part is placed at t=1, dwells past the threshold, and is
removed at t=4 (lot lookup returns `None` throughout). -/
def c1Trace : List (Option String × Sample) :=
  [(none, { present := true, area := 600, now := 1 }),
   (none, { present := true, area := 600, now := 3 }),
   (none, { present := false, area := 0, now := 4 })]

/-- C1 fails on the code (code bug): the `pushed_out` call site does not bind against
`ConnectVisionDB.log_event` (required `machine_id` missing), so on the
`TRIMMING -> EMPTY` transition the raised `TypeError` aborts the iteration after
`state = EMPTY` is assigned but before `cycle_id = None` runs: after the third sample
the phase is `EMPTY` while `cycle_id` is still `some 1000`. -/
theorem c1_cycle_id_invariant_violated :
    pyBindOk log_event_required log_event_optional pushed_out_call_kwargs = false ∧
    (runActual (initState 0) c1Trace).state = TrimmerState.EMPTY ∧
    (runActual (initState 0) c1Trace).cycle_id = some 1000 := by
  refine ⟨by decide, ?_⟩
  norm_num [c1Trace, runActual, iterActual, smStepRaising, telemetryStepRaising,
    initState, pyInt, pruneHour]

/-- The C2 scenario of the spec: `[(False,0), (True,600), (True,600) with now
advancing past 1.0 s, (True,600), (False,0)]` with `min_area = 500`, presence taken
from the area threshold, active lot `LOT1`. -/
def c2Trace : List (Option String × Sample) :=
  [(some "LOT1", { present := isPresentOf 0 500, area := 0, now := 0 }),
   (some "LOT1", { present := isPresentOf 600 500, area := 600, now := 1 }),
   (some "LOT1", { present := isPresentOf 600 500, area := 600, now := 2 }),
   (some "LOT1", { present := isPresentOf 600 500, area := 600, now := 3 }),
   (some "LOT1", { present := isPresentOf 600 500, area := 600, now := 4 }),
   (some "LOT1", { present := isPresentOf 0 500, area := 0, now := 5 })]

/-- C2 fails on the code (code bug): all four sink call sites of `monitor_loop` fail
Python keyword binding against database.py (required `machine_id` missing), so over
the spec's end-to-end scenario the code delivers no event and `total_cycles` stays 0
(the completion branch aborts before the increment, leaving `cycle_id` stale); under
the intended call semantics the same scenario delivers exactly `placed_in`,
`pushed_out`, `CYCLE` — the completion event type is `"CYCLE"`, not
`"cycle_complete"` — all with the same cycle id, and `total_cycles` becomes 1. -/
theorem c2_end_to_end_scenario_bug :
    pyBindOk log_event_required log_event_optional placed_in_call_kwargs = false ∧
    pyBindOk log_event_required log_event_optional pushed_out_call_kwargs = false ∧
    pyBindOk log_event_required log_event_optional cycle_call_kwargs = false ∧
    pyBindOk log_telemetry_required log_telemetry_optional telemetry_call_kwargs = false ∧
    (runActual (initState 0) c2Trace).total_cycles = 0 ∧
    (runActual (initState 0) c2Trace).cycle_id = some 1000 ∧
    (runIntended (initState 0) c2Trace).2.map Event.event_type =
      ["placed_in", "pushed_out", "CYCLE"] ∧
    (runIntended (initState 0) c2Trace).2.map Event.cycle_id =
      [some 1000, some 1000, some 1000] ∧
    (runIntended (initState 0) c2Trace).1.total_cycles = 1 := by
  refine ⟨by decide, by decide, by decide, by decide, ?_, ?_, ?_, ?_, ?_⟩ <;>
    norm_num [c2Trace, runActual, runIntended, iterActual, iterIntended, smStep,
      smStepRaising, telemetryStep, telemetryStepRaising, initState, pyInt,
      pruneHour, isPresentOf]

/-- The C3 counterexample input: a part is placed at t=1 with active lot `LOT1` and
removed at t=1.5, before the dwell threshold. -/
def c3Trace : List (Option String × Sample) :=
  [(some "LOT1", { present := true, area := 600, now := 1 }),
   (some "LOT1", { present := false, area := 0, now := 3 / 2 })]

/-- C3 counterexample: after the false start the machine is back in `EMPTY` with
`cycle_id` cleared, but `current_lot` is still `some "LOT1"` — the false-start branch
(lines 461-466) does not clear the lot, refuting "clears both cycle_id and
active_lot". -/
theorem c3_false_start_counterexample :
    (runActual (initState 0) c3Trace).state = TrimmerState.EMPTY ∧
    (runActual (initState 0) c3Trace).cycle_id = none ∧
    (runActual (initState 0) c3Trace).current_lot = some "LOT1" := by
  norm_num [c3Trace, runActual, iterActual, smStepRaising, telemetryStepRaising,
    initState, pyInt, pruneHour]

/-- C3 amended: whenever the phase is `PART_PLACED` and a sample with
`is_present = false` is processed, the machine transitions back to `EMPTY`, emits no
event to the sink, clears `cycle_id`, and leaves `active_lot` unchanged (it is
re-fetched at the next cycle start and cleared only on completion).  This branch also
raises nothing in the code as it actually executes. -/
theorem c3_false_start_amended :
    ∀ (lot : Option String) (s : MState) (p : Sample),
      s.state = TrimmerState.PART_PLACED → p.present = false →
      (smStep lot s p).1.state = TrimmerState.EMPTY ∧
      (smStep lot s p).1.cycle_id = none ∧
      (smStep lot s p).1.current_lot = s.current_lot ∧
      (smStep lot s p).2 = [] ∧
      (smStepRaising lot s p).1.state = TrimmerState.EMPTY ∧
      (smStepRaising lot s p).2 = false := by
  intro lot s p h1 h2
  simp [smStep, smStepRaising, h1, h2]

/-- Concrete state for the C3 witness. -/
def c3s : MState :=
  { initState 0 with
      state := .PART_PLACED
      cycle_id := some 1000
      current_lot := some "LOT1" }

/-- Witness for C3 at a concrete false start: the lot survives the transition. -/
theorem c3_false_start_amended_witness :
    c3s.state = TrimmerState.PART_PLACED ∧
    (smStep none c3s { present := false, area := 0, now := 2 }).1.current_lot =
      some "LOT1" :=
  ⟨rfl, (c3_false_start_amended none c3s { present := false, area := 0, now := 2 }
    rfl rfl).2.2.1⟩

/-- C4 counterexample: with the configuration store unreachable (`_conn is None`),
`load_trimmer_config` returns the built-in stub configuration instead of failing, so
`main` proceeds to start monitoring and the exit path is the normal one (code 0) —
refuting "unreachable store implies refuses to start with a non-zero exit". -/
theorem c4_unreachable_store_counterexample :
    load_trimmer_config false 7 (QueryResult.ok none) = some (stubTrimmerConfig 7) ∧
    mainExitCode (load_trimmer_config false 7 (QueryResult.ok none)) = 0 ∧
    monitoringStarts (load_trimmer_config false 7 (QueryResult.ok none)) = true :=
  ⟨rfl, rfl, rfl⟩

/-- C4 amended: if the store is reachable but the machine id has no row (or the
config query errors), `load_trimmer_config` returns `None` and `main` returns exit
code 1 without starting monitoring; with a loaded configuration the normal path exits
0; if the store is unreachable, the built-in stub configuration is substituted and
monitoring starts. -/
theorem c4_exit_codes_amended :
    (∀ mid : ℤ, load_trimmer_config true mid (QueryResult.ok none) = none) ∧
    (∀ mid : ℤ, load_trimmer_config true mid QueryResult.err = none) ∧
    (∀ cfg : Option TrimmerConfig, cfg = none →
      mainExitCode cfg = 1 ∧ monitoringStarts cfg = false) ∧
    (∀ cfg : TrimmerConfig,
      mainExitCode (some cfg) = 0 ∧ monitoringStarts (some cfg) = true) ∧
    (∀ (mid : ℤ) (q : QueryResult),
      load_trimmer_config false mid q = some (stubTrimmerConfig mid)) := by
  refine ⟨fun mid => rfl, fun mid => rfl, ?_, fun cfg => ⟨rfl, rfl⟩, fun mid q => rfl⟩
  rintro cfg rfl
  exact ⟨rfl, rfl⟩

/-- Witness for C4 with the configuration absent. -/
theorem c4_exit_codes_amended_witness :
    mainExitCode none = 1 ∧ monitoringStarts none = false :=
  c4_exit_codes_amended.2.2.1 none rfl

/-- C5 counterexample: after three consecutive failed iterations from the initial
state the app state is unchanged and the `/status` payload shows `EMPTY`, not
`DEGRADED` — the loop keeps no failure count and the payload has no degraded field,
refuting the escalation part of the claim. -/
theorem c5_no_degraded_counterexample :
    runLoop (initState 0) [IterOutcome.failure, IterOutcome.failure,
      IterOutcome.failure] = initState 0 ∧
    degradedVisible (runLoop (initState 0) [IterOutcome.failure, IterOutcome.failure,
      IterOutcome.failure]) 10 = false ∧
    (statusOf (runLoop (initState 0) [IterOutcome.failure, IterOutcome.failure,
      IterOutcome.failure]) 10).state = "EMPTY" :=
  ⟨rfl, rfl, rfl⟩

/-- C5 amended: an unexpected exception in a single iteration is caught (printed and
followed by a 1 s pause), the iteration is abandoned leaving the state unchanged, and
the loop continues; there is no consecutive-failure counter and no DEGRADED
escalation — the status payload's only status string is the phase value, which is
always one of `EMPTY`, `PLACED`, `TRIMMING`. -/
theorem c5_failure_handling_amended :
    (∀ (s : MState) (rest : List IterOutcome),
      runLoop s (IterOutcome.failure :: rest) = runLoop s rest) ∧
    (∀ s : MState, loopStep s IterOutcome.failure = s) ∧
    (∀ (s : MState) (now : ℚ), degradedVisible s now = false) ∧
    (∀ (s : MState) (now : ℚ), (statusOf s now).state = s.state.value ∧
      (s.state.value = "EMPTY" ∨ s.state.value = "PLACED" ∨
        s.state.value = "TRIMMING")) := by
  refine ⟨fun s rest => rfl, fun s => rfl, ?_, ?_⟩
  · intro s now
    cases h : s.state <;>
      simp [degradedVisible, statusOf, TrimmerState.value, h]
  · intro s now
    exact ⟨rfl, by cases h : s.state <;> simp [TrimmerState.value, h]⟩

end ConnectVision
